import Mathlib

/-!
Verification of the skymap star-chart engine against its specification.

The repository code under scrutiny lives in skymap/stars.py, skymap/milkyway.py,
skymap/mapmaker.py and test/test_geometry.py.  Pure helpers from skymap.geometry
(ensure_angle_range, HourAngle, DMSAngle, Rectangle.overlap) are not part of the
provided sources; where a claim depends on them they are modelled from the
specification text, and each such definition is marked accordingly.

All angular and page quantities are embedded as exact rationals; the Cartesian
epoch-propagation routine, which is built from trigonometric functions, is
embedded over the reals.
-/

namespace Skymap

/-- Modelled from the spec: ensure_angle_range (skymap.geometry, not under src/)
maps any real-valued degree figure to its representative modulo 360 in [0, 360). -/
def ensure_angle_range (degrees : ℚ) : ℚ :=
  degrees - 360 * ⌊degrees / 360⌋

/-- The right-ascension filter built by select_stars (skymap/stars.py, lines 687-698):
both bounds are normalized, then min < max gives the closed interval, max < min gives
the wrapped disjunction, and equal bounds impose no constraint at all. -/
def starsRaPred (min_ra max_ra lon : ℚ) : Bool :=
  if ensure_angle_range min_ra < ensure_angle_range max_ra then
    decide (ensure_angle_range min_ra ≤ lon ∧ lon ≤ ensure_angle_range max_ra)
  else if ensure_angle_range max_ra < ensure_angle_range min_ra then
    decide (ensure_angle_range min_ra ≤ lon ∨ lon ≤ ensure_angle_range max_ra)
  else
    true

/-- The adjusted maximum longitude computed by get_milky_way_boundary_for_area
(skymap/milkyway.py, lines 54-58): both bounds are normalized and, when they
coincide, 360 is added to the maximum. -/
def milkyWayAdjustedMax (min_longitude max_longitude : ℚ) : ℚ :=
  if ensure_angle_range max_longitude = ensure_angle_range min_longitude then
    ensure_angle_range max_longitude + 360
  else
    ensure_angle_range max_longitude

/-- The per-endpoint longitude filter built by get_milky_way_boundary_for_area
(skymap/milkyway.py, lines 63-75): closed interval when min < adjusted max,
wrapped disjunction otherwise. -/
def milkyWayLonPred (min_longitude max_longitude lon : ℚ) : Bool :=
  if ensure_angle_range min_longitude < milkyWayAdjustedMax min_longitude max_longitude then
    decide (ensure_angle_range min_longitude ≤ lon ∧
      lon ≤ milkyWayAdjustedMax min_longitude max_longitude)
  else
    decide (ensure_angle_range min_longitude ≤ lon ∨
      lon ≤ milkyWayAdjustedMax min_longitude max_longitude)

/-- Claim C1: every longitude-range filter applies the wrapped-interval rule.
With both bounds normalized into [0, 360), a strictly increasing pair selects the
ordinary closed interval and a strictly decreasing pair selects the wrapped
disjunction, in select_stars as well as in get_milky_way_boundary_for_area. -/
theorem C1_wrapped_range (min_l max_l lon : ℚ) :
    (ensure_angle_range min_l < ensure_angle_range max_l →
      (starsRaPred min_l max_l lon = true ↔
        (ensure_angle_range min_l ≤ lon ∧ lon ≤ ensure_angle_range max_l)) ∧
      (milkyWayLonPred min_l max_l lon = true ↔
        (ensure_angle_range min_l ≤ lon ∧ lon ≤ ensure_angle_range max_l))) ∧
    (ensure_angle_range max_l < ensure_angle_range min_l →
      (starsRaPred min_l max_l lon = true ↔
        (ensure_angle_range min_l ≤ lon ∨ lon ≤ ensure_angle_range max_l)) ∧
      (milkyWayLonPred min_l max_l lon = true ↔
        (ensure_angle_range min_l ≤ lon ∨ lon ≤ ensure_angle_range max_l))) := by
  constructor
  · intro h
    have hne : ensure_angle_range max_l ≠ ensure_angle_range min_l := ne_of_gt h
    have hadj : milkyWayAdjustedMax min_l max_l = ensure_angle_range max_l := by
      unfold milkyWayAdjustedMax
      exact if_neg hne
    constructor
    · unfold starsRaPred
      rw [if_pos h]
      exact decide_eq_true_iff
    · unfold milkyWayLonPred
      rw [hadj, if_pos h]
      exact decide_eq_true_iff
  · intro h
    have hne : ensure_angle_range max_l ≠ ensure_angle_range min_l := ne_of_lt h
    have hadj : milkyWayAdjustedMax min_l max_l = ensure_angle_range max_l := by
      unfold milkyWayAdjustedMax
      exact if_neg hne
    constructor
    · unfold starsRaPred
      rw [if_neg (lt_asymm h), if_pos h]
      exact decide_eq_true_iff
    · unfold milkyWayLonPred
      rw [hadj, if_neg (not_lt_of_gt h)]
      exact decide_eq_true_iff

/-- Witness for C1 at the wrapped pair of the claim, min = 350 and max = 10:
longitude 355 is selected exactly because it satisfies the wrapped disjunction. -/
theorem C1_wrapped_range_witness :
    ensure_angle_range 10 < ensure_angle_range 350 ∧
    (starsRaPred 350 10 355 = true ↔
      (ensure_angle_range 350 ≤ 355 ∨ (355 : ℚ) ≤ ensure_angle_range 10)) ∧
    (milkyWayLonPred 350 10 355 = true ↔
      (ensure_angle_range 350 ≤ 355 ∨ (355 : ℚ) ≤ ensure_angle_range 10)) :=
  ⟨by norm_num [ensure_angle_range],
    ((C1_wrapped_range 350 10 355).2 (by norm_num [ensure_angle_range])).1,
    ((C1_wrapped_range 350 10 355).2 (by norm_num [ensure_angle_range])).2⟩

/-- Claim C2, evaluated at the failing input: with min_longitude = max_longitude = 180
(already normalized) the spec and select_stars treat the range as the full circle, so
longitude 90 is selected; but get_milky_way_boundary_for_area rewrites the range to
[180, 540] and its filter rejects longitude 90.  The adjustment max_longitude += 360
in milkyway.py only makes sense as an attempt at the full-circle rule, so this is a
slip in the code rather than in the spec. -/
theorem C2_equal_range_behavior :
    starsRaPred 180 180 90 = true ∧ milkyWayLonPred 180 180 90 = false := by
  have he : ensure_angle_range 180 = 180 := by norm_num [ensure_angle_range]
  have hadj : milkyWayAdjustedMax 180 180 = 540 := by
    unfold milkyWayAdjustedMax
    rw [he, if_pos rfl]
    norm_num
  constructor
  · unfold starsRaPred
    rw [he, if_neg (lt_irrefl (180 : ℚ)), if_neg (lt_irrefl (180 : ℚ))]
  · unfold milkyWayLonPred
    rw [hadj, he, if_pos (by norm_num : (180 : ℚ) < 540), decide_eq_false_iff_not]
    norm_num

/-- Truncation toward zero, the behaviour of the Python int() conversion applied to
a real-valued angle in mapmaker.py. -/
def ratTrunc (q : ℚ) : ℤ :=
  if 0 ≤ q then ⌊q⌋ else ⌈q⌉

/-- The list produced by Python range(a, b, s) for a positive step s, over ℤ. -/
def pyRange (a b : ℤ) (s : ℕ) : List ℤ :=
  (List.range (if a < b then ((b - 1 - a) / (s : ℤ)).toNat + 1 else 0)).map
    (fun (k : ℕ) => a + (s : ℤ) * (k : ℤ))

/-- The increment-aligned floor of the viewport minimum computed by draw_parallels
and draw_meridians (skymap/mapmaker.py, lines 45 and 60). -/
def gridStart (minAngle : ℚ) (inc : ℕ) : ℤ :=
  (inc : ℤ) * ⌊minAngle / (inc : ℚ)⌋

/-- The latitudes visited by SkyMapMaker.draw_parallels (skymap/mapmaker.py,
lines 45-46): range(increment * floor(min / increment), int(max) + 1, increment). -/
def parallelDrawList (minLat maxLat : ℚ) (inc : ℕ) : List ℤ :=
  pyRange (gridStart minLat inc) (ratTrunc maxLat + 1) inc

/-- The longitudes visited by SkyMapMaker.draw_meridians (skymap/mapmaker.py,
lines 60-65): the upper bound int(max) is raised by one exactly when
int(max) - 360 < increment * floor(min / increment). -/
def meridianDrawList (minLon maxLon : ℚ) (inc : ℕ) : List ℤ :=
  pyRange (gridStart minLon inc)
    (if ratTrunc maxLon - 360 < gridStart minLon inc then ratTrunc maxLon + 1
     else ratTrunc maxLon)
    inc

theorem pyRange_head (a b : ℤ) (s : ℕ) (h : a < b) :
    (pyRange a b s).head? = some a := by
  rw [pyRange, if_pos h, List.range_succ_eq_map]
  simp

theorem pyRange_mem (a b : ℤ) (s : ℕ) (hs : 0 < s) (x : ℤ) :
    x ∈ pyRange a b s ↔ ∃ k : ℕ, x = a + (s : ℤ) * (k : ℤ) ∧ x < b := by
  have hs' : (0 : ℤ) < (s : ℤ) := by exact_mod_cast hs
  rw [pyRange]
  constructor
  · intro hx
    obtain ⟨k, hk, hfk⟩ := List.mem_map.mp hx
    rw [List.mem_range] at hk
    refine ⟨k, hfk.symm, ?_⟩
    rw [← hfk]
    by_cases hab : a < b
    · rw [if_pos hab] at hk
      have h1 : k ≤ ((b - 1 - a) / (s : ℤ)).toNat := Nat.lt_succ_iff.mp hk
      have h0 : (0 : ℤ) ≤ (b - 1 - a) / (s : ℤ) :=
        Int.ediv_nonneg (by omega) (le_of_lt hs')
      have h2 : (k : ℤ) ≤ (b - 1 - a) / (s : ℤ) := by
        calc (k : ℤ) ≤ (((b - 1 - a) / (s : ℤ)).toNat : ℤ) := by exact_mod_cast h1
          _ = (b - 1 - a) / (s : ℤ) := Int.toNat_of_nonneg h0
      have h3 : (k : ℤ) * (s : ℤ) ≤ b - 1 - a := (Int.le_ediv_iff_mul_le hs').mp h2
      have h4 : (s : ℤ) * (k : ℤ) ≤ b - 1 - a := by rwa [mul_comm] at h3
      omega
    · rw [if_neg hab] at hk
      exact absurd hk (Nat.not_lt_zero k)
  · rintro ⟨k, hxk, hxb⟩
    subst hxk
    have hks : (0 : ℤ) ≤ (s : ℤ) * (k : ℤ) := by positivity
    have hab : a < b := by linarith
    have h4 : (s : ℤ) * (k : ℤ) ≤ b - 1 - a := by omega
    have h3 : (k : ℤ) * (s : ℤ) ≤ b - 1 - a := by rwa [mul_comm] at h4
    have h2 : (k : ℤ) ≤ (b - 1 - a) / (s : ℤ) := (Int.le_ediv_iff_mul_le hs').mpr h3
    have h0 : (0 : ℤ) ≤ (b - 1 - a) / (s : ℤ) :=
      Int.ediv_nonneg (by omega) (le_of_lt hs')
    refine List.mem_map.mpr ⟨k, List.mem_range.mpr ?_, rfl⟩
    rw [if_pos hab]
    have h5 : (k : ℤ) ≤ (((b - 1 - a) / (s : ℤ)).toNat : ℤ) := by
      rw [Int.toNat_of_nonneg h0]
      exact h2
    have h6 : k ≤ ((b - 1 - a) / (s : ℤ)).toNat := by exact_mod_cast h5
    omega

theorem floor_le_ratTrunc (q : ℚ) : ⌊q⌋ ≤ ratTrunc q := by
  rw [ratTrunc]
  split
  · exact le_refl _
  · exact Int.floor_le_ceil q

theorem gridStart_le (m : ℚ) (inc : ℕ) (h : 0 < inc) :
    ((gridStart m inc : ℤ) : ℚ) ≤ m := by
  rw [gridStart]
  push_cast
  have h2 : (0 : ℚ) < (inc : ℚ) := by exact_mod_cast h
  have h1 : ((⌊m / (inc : ℚ)⌋ : ℤ) : ℚ) ≤ m / (inc : ℚ) := Int.floor_le _
  calc (inc : ℚ) * ((⌊m / (inc : ℚ)⌋ : ℤ) : ℚ)
      ≤ (inc : ℚ) * (m / (inc : ℚ)) := mul_le_mul_of_nonneg_left h1 (le_of_lt h2)
    _ = m := by field_simp

/-- Claim C3: for every viewport minimum m and positive increment i (with a
non-degenerate viewport, m ≤ max), the first value visited by draw_parallels and
by draw_meridians is the increment-aligned floor i * floor(m / i). -/
theorem C3_grid_floor (minAngle maxAngle : ℚ) (inc : ℕ)
    (hinc : 0 < inc) (hle : minAngle ≤ maxAngle) :
    (parallelDrawList minAngle maxAngle inc).head? = some (gridStart minAngle inc) ∧
    (meridianDrawList minAngle maxAngle inc).head? = some (gridStart minAngle inc) := by
  have h2 : ((gridStart minAngle inc : ℤ) : ℚ) ≤ maxAngle :=
    (gridStart_le minAngle inc hinc).trans hle
  have h1 : gridStart minAngle inc ≤ ratTrunc maxAngle :=
    (Int.le_floor.mpr h2).trans (floor_le_ratTrunc maxAngle)
  constructor
  · exact pyRange_head _ _ _ (by omega)
  · rw [meridianDrawList]
    by_cases hc : ratTrunc maxAngle - 360 < gridStart minAngle inc
    · rw [if_pos hc]
      exact pyRange_head _ _ _ (by omega)
    · rw [if_neg hc]
      exact pyRange_head _ _ _ (by omega)

/-- Witness for C3 at the instance named by the claim: increment 10 and viewport
minimum -37 give -40 as the first drawn parallel (and meridian). -/
theorem C3_grid_floor_witness :
    0 < 10 ∧ ((-37 : ℚ) ≤ 10) ∧
    (parallelDrawList (-37) 10 10).head? = some (-40) ∧
    (meridianDrawList (-37) 10 10).head? = some (-40) := by
  have hg : gridStart (-37 : ℚ) 10 = -40 := by
    rw [gridStart]
    norm_num
  have h := C3_grid_floor (-37) 10 10 (by norm_num) (by norm_num)
  exact ⟨by norm_num, by norm_num, hg ▸ h.1, hg ▸ h.2⟩

/-- Counterexample to claim C4 as stated: in the wrap-around case the code raises
the iteration bound by one, not by one increment.  With increment 15, floored
minimum 345 and int(max) = 370, draw_meridians visits [345, 360] (bound 371),
whereas a bound extended by one increment (bound 385) would visit [345, 360, 375]. -/
theorem C4_counterexample :
    meridianDrawList 345 370 15 ≠ pyRange (gridStart 345 15) (ratTrunc 370 + 15) 15 := by
  have hg : gridStart (345 : ℚ) 15 = 345 := by
    rw [gridStart]
    norm_num
  have ht : ratTrunc (370 : ℚ) = 370 := by
    rw [ratTrunc, if_pos (by norm_num : (0 : ℚ) ≤ 370)]
    norm_num
  rw [meridianDrawList, hg, ht]
  decide

/-- Claim C4 as amended: whenever int(max_longitude) - 360 < the floored minimum,
the bound is raised by one, so the loop visits exactly the increment-aligned values
from the floored minimum up to and including int(max_longitude) - in particular it
reaches the meridians in the wrapped part of the range. -/
theorem C4_wrap_coverage (minLon maxLon : ℚ) (inc : ℕ) (hinc : 0 < inc)
    (hwrap : ratTrunc maxLon - 360 < gridStart minLon inc) (x : ℤ) :
    x ∈ meridianDrawList minLon maxLon inc ↔
      ∃ k : ℕ, x = gridStart minLon inc + (inc : ℤ) * (k : ℤ) ∧ x ≤ ratTrunc maxLon := by
  rw [meridianDrawList, if_pos hwrap, pyRange_mem _ _ _ hinc]
  constructor
  · rintro ⟨k, h1, h2⟩
    exact ⟨k, h1, by omega⟩
  · rintro ⟨k, h1, h2⟩
    exact ⟨k, h1, by omega⟩

/-- Witness for C4 as amended: with increment 15, minimum 345 and maximum 370
(a range wrapped past 360), the meridian at 360 is drawn. -/
theorem C4_wrap_coverage_witness :
    0 < 15 ∧ ratTrunc (370 : ℚ) - 360 < gridStart 345 15 ∧
    (360 : ℤ) ∈ meridianDrawList 345 370 15 := by
  have hg : gridStart (345 : ℚ) 15 = 345 := by
    rw [gridStart]
    norm_num
  have ht : ratTrunc (370 : ℚ) = 370 := by
    rw [ratTrunc, if_pos (by norm_num : (0 : ℚ) ≤ 370)]
    norm_num
  refine ⟨by norm_num, by rw [hg, ht]; norm_num, ?_⟩
  exact (C4_wrap_coverage 345 370 15 (by norm_num) (by rw [hg, ht]; norm_num) 360).mpr
    ⟨1, by rw [hg]; norm_num, by rw [ht]; norm_num⟩

/-- A row of the skymap_stars table as consumed by select_stars: the columns the
WHERE and ORDER BY clauses touch. -/
structure StarRow where
  magnitude : ℚ
  constellation : String
  right_ascension : ℚ
  declination : ℚ
deriving DecidableEq

/-- The declination-range legality test of select_stars (skymap/stars.py,
line 703). -/
def decRangeIllegal (min_dec max_dec : ℚ) : Bool :=
  decide (min_dec < -90) || decide (min_dec > 90) || decide (max_dec < -90) ||
    decide (max_dec > 90) || decide (max_dec ≤ min_dec)

/-- The row filter assembled by select_stars (skymap/stars.py, lines 682-705):
magnitude cutoff, optional constellation, optional right-ascension range with the
wrapped-interval rule, optional declination interval. -/
def rowPred (magnitude : ℚ) (constellation : Option String)
    (ra_range dec_range : Option (ℚ × ℚ)) (r : StarRow) : Bool :=
  decide (r.magnitude ≤ magnitude) &&
  (match constellation with
   | none => true
   | some c => r.constellation == c) &&
  (match ra_range with
   | none => true
   | some (min_ra, max_ra) => starsRaPred min_ra max_ra r.right_ascension) &&
  (match dec_range with
   | none => true
   | some (min_dec, max_dec) =>
       decide (min_dec ≤ r.declination) && decide (r.declination ≤ max_dec))

/-- The ORDER BY magnitude ASC clause of select_stars (skymap/stars.py, line 708),
modelled as a stable sort on the magnitude column. -/
def sortByMagnitude (rows : List StarRow) : List StarRow :=
  List.insertionSort (fun a b => a.magnitude ≤ b.magnitude) rows

/-- select_stars (skymap/stars.py, lines 670-716): validates the declination range
before any catalog query, then returns the filtered rows ordered from brightest
(smallest magnitude) to faintest. -/
def select_stars (magnitude : ℚ) (constellation : Option String)
    (ra_range dec_range : Option (ℚ × ℚ)) (rows : List StarRow) :
    Except String (List StarRow) :=
  match dec_range with
  | some (min_dec, max_dec) =>
      if decRangeIllegal min_dec max_dec then
        Except.error ("Illegal DEC range!")
      else
        Except.ok (sortByMagnitude (rows.filter
          (rowPred magnitude constellation ra_range (some (min_dec, max_dec)))))
  | none =>
      Except.ok (sortByMagnitude (rows.filter
        (rowPred magnitude constellation ra_range none)))

instance : IsTotal StarRow (fun a b => a.magnitude ≤ b.magnitude) :=
  ⟨fun a b => le_total a.magnitude b.magnitude⟩

instance : IsTrans StarRow (fun a b => a.magnitude ≤ b.magnitude) :=
  ⟨fun _ _ _ hab hbc => le_trans hab hbc⟩

theorem decRangeIllegal_iff (min_dec max_dec : ℚ) :
    decRangeIllegal min_dec max_dec = true ↔
      (min_dec < -90 ∨ min_dec > 90 ∨ max_dec < -90 ∨ max_dec > 90 ∨
        max_dec ≤ min_dec) := by
  simp [decRangeIllegal, or_assoc]

/-- Claim C5: an illegal declination range (a bound outside [-90, 90] or
max ≤ min) makes select_stars fail immediately with the descriptive error,
independently of the catalog contents; a legal range never fails and restricts
every returned row to min_dec ≤ declination ≤ max_dec. -/
theorem C5_dec_range (magnitude : ℚ) (constellation : Option String)
    (ra_range : Option (ℚ × ℚ)) (min_dec max_dec : ℚ) (rows : List StarRow) :
    ((min_dec < -90 ∨ min_dec > 90 ∨ max_dec < -90 ∨ max_dec > 90 ∨
        max_dec ≤ min_dec) →
      select_stars magnitude constellation ra_range (some (min_dec, max_dec)) rows =
        Except.error ("Illegal DEC range!")) ∧
    (¬(min_dec < -90 ∨ min_dec > 90 ∨ max_dec < -90 ∨ max_dec > 90 ∨
        max_dec ≤ min_dec) →
      select_stars magnitude constellation ra_range (some (min_dec, max_dec)) rows =
        Except.ok (sortByMagnitude (rows.filter
          (rowPred magnitude constellation ra_range (some (min_dec, max_dec))))) ∧
      ∀ r ∈ sortByMagnitude (rows.filter
          (rowPred magnitude constellation ra_range (some (min_dec, max_dec)))),
        min_dec ≤ r.declination ∧ r.declination ≤ max_dec) := by
  constructor
  · intro h
    simp only [select_stars]
    rw [if_pos ((decRangeIllegal_iff min_dec max_dec).mpr h)]
  · intro h
    refine ⟨?_, ?_⟩
    · simp only [select_stars]
      rw [if_neg (fun hc => h ((decRangeIllegal_iff min_dec max_dec).mp hc))]
    · intro r hr
      have hr2 : r ∈ rows.filter
          (rowPred magnitude constellation ra_range (some (min_dec, max_dec))) :=
        ((List.perm_insertionSort _ _).mem_iff).mp hr
      have hpred := (List.mem_filter.mp hr2).2
      simp only [rowPred, Bool.and_eq_true, decide_eq_true_eq] at hpred
      exact hpred.2

/-- Witness for C5: min_dec = 100 is outside [-90, 90] and triggers the error;
the legal range (-30, 30) succeeds and bounds the declination of the rows kept. -/
theorem C5_dec_range_witness :
    ((100 : ℚ) < -90 ∨ (100 : ℚ) > 90 ∨ (50 : ℚ) < -90 ∨ (50 : ℚ) > 90 ∨
      (50 : ℚ) ≤ 100) ∧
    (¬((-30 : ℚ) < -90 ∨ (-30 : ℚ) > 90 ∨ (30 : ℚ) < -90 ∨ (30 : ℚ) > 90 ∨
      (30 : ℚ) ≤ -30)) ∧
    select_stars 6 none none (some (100, 50)) [] =
      Except.error ("Illegal DEC range!") ∧
    select_stars 6 none none (some (-30, 30)) [⟨5, "ORI", 10, 0⟩] =
      Except.ok (sortByMagnitude ([⟨5, "ORI", 10, 0⟩].filter
        (rowPred 6 none none (some (-30, 30))))) ∧
    ∀ r ∈ sortByMagnitude ([(⟨5, "ORI", 10, 0⟩ : StarRow)].filter
        (rowPred 6 none none (some (-30, 30)))),
      (-30 : ℚ) ≤ r.declination ∧ r.declination ≤ 30 :=
  ⟨by norm_num, by norm_num,
    (C5_dec_range 6 none none 100 50 []).1 (by norm_num),
    ((C5_dec_range 6 none none (-30) 30 [⟨5, "ORI", 10, 0⟩]).2 (by norm_num)).1,
    ((C5_dec_range 6 none none (-30) 30 [⟨5, "ORI", 10, 0⟩]).2 (by norm_num)).2⟩

/-- Claim C8: whatever the arguments, a successful select_stars call returns rows
sorted by ascending magnitude (brightest first) and every returned row passes the
inclusive magnitude cutoff. -/
theorem C8_sorted_mag (magnitude : ℚ) (constellation : Option String)
    (ra_range dec_range : Option (ℚ × ℚ)) (rows l : List StarRow)
    (h : select_stars magnitude constellation ra_range dec_range rows = Except.ok l) :
    List.Sorted (fun a b : StarRow => a.magnitude ≤ b.magnitude) l ∧
    ∀ r ∈ l, r.magnitude ≤ magnitude := by
  have hl : l = sortByMagnitude (rows.filter
      (rowPred magnitude constellation ra_range dec_range)) := by
    cases dec_range with
    | none =>
      simp only [select_stars] at h
      exact (Except.ok.inj h).symm
    | some p =>
      obtain ⟨mn, mx⟩ := p
      simp only [select_stars] at h
      split at h
      · simp at h
      · exact (Except.ok.inj h).symm
  subst hl
  constructor
  · unfold sortByMagnitude
    exact List.sorted_insertionSort _ _
  · intro r hr
    have hr2 : r ∈ rows.filter
        (rowPred magnitude constellation ra_range dec_range) :=
      ((List.perm_insertionSort _ _).mem_iff).mp hr
    have hpred := (List.mem_filter.mp hr2).2
    simp only [rowPred, Bool.and_eq_true, decide_eq_true_eq] at hpred
    exact hpred.1.1.1

/-- Witness for C8: a faint and a bright row are returned brightest-first under
cutoff 6, and both magnitudes are within the cutoff. -/
theorem C8_sorted_mag_witness :
    select_stars 6 none none none [⟨5, "AND", 0, 0⟩, ⟨3, "ORI", 10, 10⟩] =
      Except.ok [⟨3, "ORI", 10, 10⟩, ⟨5, "AND", 0, 0⟩] ∧
    List.Sorted (fun a b : StarRow => a.magnitude ≤ b.magnitude)
      [⟨3, "ORI", 10, 10⟩, ⟨5, "AND", 0, 0⟩] ∧
    ∀ r ∈ [(⟨3, "ORI", 10, 10⟩ : StarRow), ⟨5, "AND", 0, 0⟩], r.magnitude ≤ 6 := by
  have h : select_stars 6 none none none [⟨5, "AND", 0, 0⟩, ⟨3, "ORI", 10, 10⟩] =
      Except.ok [⟨3, "ORI", 10, 10⟩, ⟨5, "AND", 0, 0⟩] := by
    norm_num [select_stars, sortByMagnitude, List.insertionSort, List.orderedInsert,
      rowPred, List.filter]
  have h2 := C8_sorted_mag 6 none none none _ _ h
  exact ⟨h, h2.1, h2.2⟩

/-- A point on the celestial sphere: longitude and latitude in degrees
(skymap.geometry SphericalPoint, as consumed by milkyway.py). -/
structure SphericalPoint where
  longitude : ℚ
  latitude : ℚ
deriving DecidableEq

def isUpperAZ (c : Char) : Bool :=
  decide ('A' ≤ c ∧ c ≤ 'Z')

/-- The characters matched by the regex class backslash-s (ASCII). -/
def isSpaceChar (c : Char) : Bool :=
  c == ' ' || c == '\t' || c == '\n' || c == '\r' || c == '\x0b' || c == '\x0c'

def digitVal (c : Char) : ℕ :=
  c.toNat - 48

def twoDigits (a b : Char) : ℕ :=
  10 * digitVal a + digitVal b

/-- The latitude group of the extract_point pattern: an optional minus sign, two
digits, a space, two digits, end of line. -/
def parseLat : List Char → Option (ℤ × ℕ)
  | '-' :: a :: b :: ' ' :: c :: d :: [] =>
      if a.isDigit && b.isDigit && c.isDigit && d.isDigit then
        some (-(twoDigits a b : ℤ), twoDigits c d)
      else none
  | a :: b :: ' ' :: c :: d :: [] =>
      if a.isDigit && b.isDigit && c.isDigit && d.isDigit then
        some ((twoDigits a b : ℤ), twoDigits c d)
      else none
  | _ => none

/-- The coordinate part of the extract_point pattern after the leading keyword and
whitespace: two digits, space, two digits, space, two digits, a comma and a space,
then the latitude group. -/
def parseCoords : List Char → Option (ℕ × ℕ × ℕ × ℤ × ℕ)
  | a :: b :: ' ' :: c :: d :: ' ' :: e :: f :: ',' :: ' ' :: rest =>
      if a.isDigit && b.isDigit && c.isDigit && d.isDigit && e.isDigit && f.isDigit then
        match parseLat rest with
        | some (dd, mm) => some (twoDigits a b, twoDigits c d, twoDigits e f, dd, mm)
        | none => none
      else none
  | _ => none

/-- The anchored point pattern of extract_point (skymap/milkyway.py, line 36):
one or more uppercase letters, one whitespace character, then the two coordinate
groups.  Returns the matched hour-angle and degree-minute fields. -/
def matchPoint (cs : List Char) : Option (ℕ × ℕ × ℕ × ℤ × ℕ) :=
  match cs with
  | c :: rest =>
      if isUpperAZ c then
        match rest.dropWhile isUpperAZ with
        | s :: rest2 => if isSpaceChar s then parseCoords rest2 else none
        | [] => none
      else none
  | [] => none

/-- Modelled from the spec: the HourAngle conversion of skymap.geometry (not under
src/) turns (h, m, s) into degrees as 15 * (h + m/60 + s/3600), with no range
validation of the minute and second fields. -/
def hourAngleToDegrees (h m s : ℕ) : ℚ :=
  15 * ((h : ℚ) + (m : ℚ) / 60 + (s : ℚ) / 3600)

/-- Modelled from the spec: the DMSAngle conversion of skymap.geometry (not under
src/) turns (d, m) into degrees as sign(d) * (abs d + m/60), with no range
validation of the minute field. -/
def dmsToDegrees (d : ℤ) (m : ℕ) : ℚ :=
  if d < 0 then -((d.natAbs : ℚ) + (m : ℚ) / 60) else (d : ℚ) + (m : ℚ) / 60

/-- extract_point (skymap/milkyway.py, lines 35-50): match the point pattern and
convert the fields; a failed match raises AttributeError on m.groups(), which the
function itself catches, returning None. -/
def extract_point (line : String) : Option SphericalPoint :=
  match matchPoint line.toList with
  | some (h, m, s, d, mm) => some ⟨hourAngleToDegrees h m s, dmsToDegrees d mm⟩
  | none => none

/-- Counterexample to claim C6 as stated: extract_point is total and returns None
on a malformed line instead of raising a parse error - the AttributeError from the
failed regex match is caught inside the function (skymap/milkyway.py, lines 49-50). -/
theorem C6_counterexample : extract_point ("garbage") = none := by
  rfl

/-- Claim C6 as amended: for every line that fails the point pattern, extract_point
silently yields None rather than raising; fields that fit the two-digit pattern but
are out of sexagesimal range are not rejected either - minutes 75 are converted
arithmetically (15 * (1 + 75/60) = 135/4 degrees), with no clamping and no error. -/
theorem C6_no_raise :
    (∀ line : String, matchPoint line.toList = none → extract_point line = none) ∧
    extract_point ("MOVE 01 75 00, 10 20") = some ⟨135/4, 31/3⟩ := by
  constructor
  · intro line hnone
    unfold extract_point
    rw [hnone]
  · have hm : matchPoint (String.toList ("MOVE 01 75 00, 10 20")) =
        some (1, 75, 0, 10, 20) := by rfl
    unfold extract_point
    rw [hm]
    norm_num [hourAngleToDegrees, dmsToDegrees]

/-- Witness for C6 as amended, at a line matching the keyword but not the
coordinate groups. -/
theorem C6_no_raise_witness :
    matchPoint (String.toList ("MOVE abc")) = none ∧
    extract_point ("MOVE abc") = none :=
  ⟨by rfl, C6_no_raise.1 ("MOVE abc") (by rfl)⟩

/-- The Python falsiness test applied by propagate_position to a proper-motion
component: None and 0 are falsy. -/
def falsy : Option ℚ → Bool
  | none => true
  | some x => decide (x = 0)

/-- propagate_position (skymap/stars.py, lines 50-77).  The epoch difference
julian_year_difference(to_epoch, from_epoch) (skymap.coordinates, not under src/)
is abstracted as the parameter dt, and the float cosine as the parameter cos_fn;
the early return fires when either proper-motion component is falsy. -/
def propagate_position (cos_fn : ℚ → ℚ) (dt right_ascension declination : ℚ)
    (proper_motion_ra proper_motion_dec : Option ℚ) : ℚ × ℚ :=
  if falsy proper_motion_dec || falsy proper_motion_ra then
    (right_ascension, declination)
  else
    (right_ascension + dt * (proper_motion_ra.getD 0 / 3600000) / cos_fn declination,
     declination + dt * (proper_motion_dec.getD 0 / 3600000))

/-- Claim C9: whenever either proper-motion component is zero or missing,
propagate_position returns the input position exactly, for every epoch difference
and even when the other component is nonzero. -/
theorem C9_identity (cos_fn : ℚ → ℚ) (dt right_ascension declination : ℚ)
    (proper_motion_ra proper_motion_dec : Option ℚ)
    (h : falsy proper_motion_ra = true ∨ falsy proper_motion_dec = true) :
    propagate_position cos_fn dt right_ascension declination proper_motion_ra
      proper_motion_dec = (right_ascension, declination) := by
  rcases h with h | h <;> simp [propagate_position, h]

/-- Witness for C9: a nonzero right-ascension proper motion with a missing
declination proper motion leaves the position (10, 20) untouched. -/
theorem C9_identity_witness :
    falsy (some 5) = false ∧ falsy (none : Option ℚ) = true ∧
    propagate_position (fun _ => 1) 1 10 20 (some 5) none = (10, 20) :=
  ⟨by norm_num [falsy], rfl,
    C9_identity (fun _ => 1) 1 10 20 (some 5) none (Or.inr rfl)⟩

/-- A point of the page plane (skymap.geometry Point). -/
structure Point where
  x : ℚ
  y : ℚ
deriving DecidableEq

/-- An axis-aligned rectangle given by its lower-left and upper-right corners
(skymap.geometry Rectangle). -/
structure Rectangle where
  p1 : Point
  p2 : Point
deriving DecidableEq

/-- A circle given by center and radius (skymap.geometry Circle). -/
structure Circle where
  center : Point
  radius : ℚ
deriving DecidableEq

/-- The two shape kinds accepted by Rectangle.overlap. -/
inductive Shape where
  | rect : Rectangle → Shape
  | circ : Circle → Shape

/-- The x extent of a shape: corner interval for a rectangle, center plus and
minus radius for a circle. -/
def Shape.xExtent : Shape → ℚ × ℚ
  | .rect r => (r.p1.x, r.p2.x)
  | .circ c => (c.center.x - c.radius, c.center.x + c.radius)

/-- The y extent of a shape. -/
def Shape.yExtent : Shape → ℚ × ℚ
  | .rect r => (r.p1.y, r.p2.y)
  | .circ c => (c.center.y - c.radius, c.center.y + c.radius)

/-- Modelled from the spec: Rectangle.overlap (skymap.geometry, not under src/) is
the one-axis penetration metric of spec section 4.2: it returns 0 when the bounding
extents are disjoint on either axis, otherwise the length of the overlapping
interval along the x axis when the shape extent is only partially inside the
rectangle there, and along the y axis otherwise.  It is not an intersection area. -/
def Rectangle.overlap (r : Rectangle) (s : Shape) : ℚ :=
  if min r.p2.x s.xExtent.2 - max r.p1.x s.xExtent.1 ≤ 0 ∨
      min r.p2.y s.yExtent.2 - max r.p1.y s.yExtent.1 ≤ 0 then
    0
  else if ¬(r.p1.x ≤ s.xExtent.1 ∧ s.xExtent.2 ≤ r.p2.x) then
    min r.p2.x s.xExtent.2 - max r.p1.x s.xExtent.1
  else
    min r.p2.y s.yExtent.2 - max r.p1.y s.yExtent.1

/-- Modelled from the spec: the decimal literals of test_geometry.py are Python
floats, that is IEEE-754 doubles.  This is the value of a rational rounded to 53
significant bits (round half up; ties never arise for the literals in question,
and overflow and subnormal ranges are far from the magnitudes involved). -/
def roundToDouble (q : ℚ) : ℚ :=
  if q = 0 then 0
  else
    (if q < 0 then (-1 : ℚ) else 1) *
      (round (|q| * 2 ^ (52 - Int.log 2 |q|)) : ℚ) / 2 ^ (52 - Int.log 2 |q|)

theorem intLog2_eq (q : ℚ) (e : ℤ) (hq : 0 < q)
    (h1 : (2 : ℚ) ^ e ≤ q) (h2 : q < (2 : ℚ) ^ (e + 1)) :
    Int.log 2 q = e := by
  have hb : (1 : ℕ) < 2 := one_lt_two
  have ha : e ≤ Int.log 2 q := (Int.zpow_le_iff_le_log hb hq).mp h1
  have hc : Int.log 2 q < e + 1 := (Int.lt_zpow_iff_log_lt hb hq).mp h2
  omega

theorem roundToDouble_eval (q : ℚ) (e : ℤ) (hq : 0 < q)
    (h1 : (2 : ℚ) ^ e ≤ q) (h2 : q < (2 : ℚ) ^ (e + 1)) :
    roundToDouble q = (round (q * 2 ^ (52 - e)) : ℚ) / 2 ^ (52 - e) := by
  rw [roundToDouble, if_neg (ne_of_gt hq), if_neg (not_lt_of_gt hq), abs_of_pos hq,
    intLog2_eq q e hq h1 h2, one_mul]

theorem roundToDouble_neg (q : ℚ) : roundToDouble (-q) = -roundToDouble q := by
  rcases lt_trichotomy q 0 with h | rfl | h
  · rw [roundToDouble, roundToDouble, abs_neg, if_neg (neg_ne_zero.mpr (ne_of_lt h)),
      if_neg (not_lt_of_gt (by linarith : (0 : ℚ) < -q)), if_neg (ne_of_lt h), if_pos h]
    ring
  · simp [roundToDouble]
  · rw [roundToDouble, roundToDouble, abs_neg, if_neg (neg_ne_zero.mpr (ne_of_gt h)),
      if_pos (by linarith : -q < 0), if_neg (ne_of_gt h), if_neg (not_lt_of_gt h)]
    ring

/-- The rectangle and circles of RectangleTest.test_overlap
(test/test_geometry.py, lines 10-28).  The literals 0, 1, 0.5, 1.5 and 4 are
exactly representable doubles; the long decimals are rounded to their double
values. -/
def r1 : Rectangle := ⟨⟨0, 0⟩, ⟨1, 1⟩⟩

def r2 : Rectangle := ⟨⟨1/2, 0⟩, ⟨3/2, 1⟩⟩

def c1 : Circle := ⟨⟨1, 1/2⟩, 1/2⟩

def c2 : Circle := ⟨⟨4, 0⟩, 1/2⟩

def r3 : Rectangle :=
  ⟨⟨roundToDouble (-(441658022222/10000000000)),
      roundToDouble (105834038889/100000000000)⟩,
    ⟨roundToDouble (441658022222/10000000000),
      roundToDouble (497850936111/100000000000)⟩⟩

def c3 : Circle := ⟨⟨-1, 0⟩, 1/2⟩

def c4 : Circle := ⟨⟨1, 0⟩, 1/2⟩

def c5 : Circle := ⟨⟨1, 1⟩, 1/2⟩

/-- Claim C7: Rectangle.overlap reproduces the literal values of spec section 8,
with every decimal literal read as the IEEE-754 double the Python source denotes.
In the partial-penetration case the exact result 1.5 - double(1.05834038889)
is itself a representable double and equals double(0.44165961110999996). -/
theorem C7_overlap_values :
    r1.overlap (Shape.rect r2) = 1/2 ∧
    r1.overlap (Shape.circ c1) = 1/2 ∧
    r1.overlap (Shape.circ c2) = 0 ∧
    r3.overlap (Shape.circ c5) = roundToDouble (44165961110999996/100000000000000000) ∧
    r3.overlap (Shape.circ c3) = 0 ∧
    r3.overlap (Shape.circ c4) = 0 := by
  have hbot : roundToDouble (105834038889/100000000000) =
      2383170690518075/2251799813685248 := by
    rw [roundToDouble_eval (105834038889/100000000000) 0 (by norm_num) (by norm_num)
      (by norm_num), round_eq]
    norm_num
  have htop : roundToDouble (497850936111/100000000000) =
      5605303225888881/1125899906842624 := by
    rw [roundToDouble_eval (497850936111/100000000000) 2 (by norm_num) (by norm_num)
      (by norm_num), round_eq]
    norm_num
  have hx : roundToDouble (220829011111/5000000000) =
      12140203273341/274877906944 := by
    rw [roundToDouble_eval (220829011111/5000000000) 5 (by norm_num) (by norm_num)
      (by norm_num), round_eq]
    norm_num
  have hnx : roundToDouble (-(220829011111/5000000000)) =
      -(12140203273341/274877906944) := by
    rw [roundToDouble_neg, hx]
  have hexp : roundToDouble (11041490277749999/25000000000000000) =
      994529030009797/2251799813685248 := by
    rw [roundToDouble_eval (11041490277749999/25000000000000000) (-2) (by norm_num)
      (by norm_num) (by norm_num), round_eq]
    norm_num
  refine ⟨?_, ?_, ?_, ?_, ?_, ?_⟩ <;>
    norm_num [Rectangle.overlap, Shape.xExtent, Shape.yExtent, r1, r2, r3, c1, c2,
      c3, c4, c5, hbot, htop, hx, hnx, hexp, min_def, max_def]

/-- The constant MAS_FOR_FULL_CIRCLE = 360 * 60 * 60 * 1000 (skymap/stars.py,
line 17). -/
noncomputable def MAS_FOR_FULL_CIRCLE : ℝ := 1296000000

/-- The constant KM_PER_S_TO_PARSEC_PER_YEAR = 1 / 977780 (skymap/stars.py,
line 16). -/
noncomputable def KM_PER_S_TO_PARSEC_PER_YEAR : ℝ := 1 / 977780

/-- The two-argument arctangent, math.atan2(y, x), as the argument of the complex
number x + y i, valued in (-pi, pi]. -/
noncomputable def atan2 (y x : ℝ) : ℝ := Complex.arg ⟨x, y⟩

/-- The final right-ascension normalization of propagate_position2
(skymap/stars.py, lines 134-135): add 360 to a negative degree value. -/
noncomputable def normalize_ra (r : ℝ) : ℝ := if r < 0 then r + 360 else r

/-- propagate_position2 (skymap/stars.py, lines 80-137), over the reals.  The
epoch difference julian_year_difference(to_epoch, from_epoch) is abstracted as the
parameter dt; everything else follows the source line by line: proper motion to
linear velocity, spherical to Cartesian, linear propagation, back to spherical. -/
noncomputable def propagate_position2 (dt right_ascension declination
    proper_motion_ra proper_motion_dec distance radial_velocity : ℝ) : ℝ × ℝ :=
  let ra := right_ascension * Real.pi / 180
  let de := declination * Real.pi / 180
  let velocity_ra := proper_motion_ra * 2 * Real.pi * distance /
    (MAS_FOR_FULL_CIRCLE * KM_PER_S_TO_PARSEC_PER_YEAR)
  let velocity_dec := proper_motion_dec * 2 * Real.pi * distance /
    (MAS_FOR_FULL_CIRCLE * KM_PER_S_TO_PARSEC_PER_YEAR)
  let x0 := distance * Real.cos de * Real.cos ra
  let y0 := distance * Real.cos de * Real.sin ra
  let z0 := distance * Real.sin de
  let vx := (radial_velocity * Real.cos de * Real.cos ra - velocity_ra * Real.sin ra -
    velocity_dec * Real.sin de * Real.cos ra) * KM_PER_S_TO_PARSEC_PER_YEAR
  let vy := (radial_velocity * Real.cos de * Real.sin ra + velocity_ra * Real.cos ra -
    velocity_dec * Real.sin de * Real.sin ra) * KM_PER_S_TO_PARSEC_PER_YEAR
  let vz := (radial_velocity * Real.sin de + velocity_dec * Real.cos de) *
    KM_PER_S_TO_PARSEC_PER_YEAR
  let x1 := x0 + vx * dt
  let y1 := y0 + vy * dt
  let z1 := z0 + vz * dt
  let dxy := Real.sqrt (x1 ^ 2 + y1 ^ 2)
  (normalize_ra (atan2 y1 x1 * 180 / Real.pi), atan2 z1 dxy * 180 / Real.pi)

theorem normalize_ra_atan2_mem (y x : ℝ) :
    normalize_ra (atan2 y x * 180 / Real.pi) ∈ Set.Ico (0 : ℝ) 360 := by
  have hpi := Real.pi_pos
  have ha : -Real.pi < atan2 y x ∧ atan2 y x ≤ Real.pi :=
    ⟨(Complex.arg_mem_Ioc ⟨x, y⟩).1, (Complex.arg_mem_Ioc ⟨x, y⟩).2⟩
  have h1 : atan2 y x * 180 / Real.pi ≤ 180 := by
    rw [div_le_iff₀ hpi]
    linarith [ha.2]
  have h2 : -180 < atan2 y x * 180 / Real.pi := by
    rw [lt_div_iff₀ hpi]
    linarith [ha.1]
  rw [normalize_ra]
  split
  · constructor
    · linarith
    · linarith
  · constructor
    · linarith [not_lt.mp (by assumption)]
    · linarith

theorem atan2_sqrt_mem (z x y : ℝ) :
    atan2 z (Real.sqrt (x ^ 2 + y ^ 2)) * 180 / Real.pi ∈ Set.Icc (-90 : ℝ) 90 := by
  have hpi := Real.pi_pos
  have hre : 0 ≤ (Complex.mk (Real.sqrt (x ^ 2 + y ^ 2)) z).re := Real.sqrt_nonneg _
  have habs0 : |Complex.arg ⟨Real.sqrt (x ^ 2 + y ^ 2), z⟩| ≤ Real.pi / 2 :=
    Complex.abs_arg_le_pi_div_two_iff.mpr hre
  rw [abs_le] at habs0
  have habs : -(Real.pi / 2) ≤ atan2 z (Real.sqrt (x ^ 2 + y ^ 2)) ∧
      atan2 z (Real.sqrt (x ^ 2 + y ^ 2)) ≤ Real.pi / 2 := habs0
  constructor
  · rw [le_div_iff₀ hpi]
    linarith [habs.1]
  · rw [div_le_iff₀ hpi]
    linarith [habs.2]

/-- Claim C10: for every input, propagate_position2 returns a normalized spherical
position - the right ascension lies in [0, 360) and the declination in [-90, 90]. -/
theorem C10_normalized (dt right_ascension declination proper_motion_ra
    proper_motion_dec distance radial_velocity : ℝ) :
    (propagate_position2 dt right_ascension declination proper_motion_ra
        proper_motion_dec distance radial_velocity).1 ∈ Set.Ico (0 : ℝ) 360 ∧
    (propagate_position2 dt right_ascension declination proper_motion_ra
        proper_motion_dec distance radial_velocity).2 ∈ Set.Icc (-90 : ℝ) 90 :=
  ⟨normalize_ra_atan2_mem _ _, atan2_sqrt_mem _ _ _⟩

end Skymap
